import Mathlib

set_option linter.unusedVariables false
set_option maxRecDepth 16384

/-!
Shallow embedding of the Toronto Open Data MCP server (`src/main.py`).

The tools read dynamically-typed JSON payloads from the remote CKAN catalog.
The embedding represents a payload field read with `dict.get(key)` as an
`Option`; a field read with plain `dict[key]` indexing requires the key, a
missing one raising `KeyError` (`Except.error`); the Python truthiness test
of an optional string is `truthy`.  Strings handled by the tools are ASCII
at every position the
code inspects, so Python's `str.upper`/`str.lower` are modelled by the
ASCII maps `pyUpper`/`pyLower`.  Remote HTTP responses are inputs: a
`Result` for each catalog call, and (status code, list of raw byte lines)
for a file download.
-/

/-! ### Generic helpers mirroring Python string/list primitives -/

/-- Python `str.lower` (ASCII). -/
def pyLower (s : String) : String := String.mk (s.data.map Char.toLower)

/-- Python `str.upper` (ASCII). -/
def pyUpper (s : String) : String := String.mk (s.data.map Char.toUpper)

/-- Python truthiness of an optional string: `None` and `""` are falsy. -/
def truthy : Option String → Bool
  | none => false
  | some s => s != ""

/-- `leadsWith pat l`: `pat` is a prefix of `l`. -/
def leadsWith : List Char → List Char → Bool
  | [], _ => true
  | _ :: _, [] => false
  | a :: as, b :: bs => a == b && leadsWith as bs

/-- `occursWithin pat l`: `pat` occurs contiguously inside `l`
(Python's substring operator `in`). -/
def occursWithin (pat : List Char) : List Char → Bool
  | [] => pat.isEmpty
  | c :: rest => leadsWith pat (c :: rest) || occursWithin pat rest

/-- Python `pat in s` for strings. -/
def strContains (s pat : String) : Bool := occursWithin pat.data s.data

/-- Python `s.startswith(pat)`. -/
def strStartsWith (s pat : String) : Bool := leadsWith pat.data s.data

/-- Python `sep.join(parts)`. -/
def joinWith (sep : String) : List String → String
  | [] => ""
  | [s] => s
  | s :: rest => s ++ sep ++ joinWith sep rest

/-- Python `"\n".join(output)`, how every report is assembled. -/
def joinLines : List String → String := joinWith "\n"

/-- Groups of up to three characters, taken from the front. -/
def groupsOfThree : List Char → List (List Char)
  | [] => []
  | a :: rest => (a :: rest.take 2) :: groupsOfThree (rest.drop 2)
termination_by l => l.length
decreasing_by
  simp only [List.length_drop, List.length_cons]
  omega

/-- Digit grouping of Python `format(n, ",")` for a natural number. -/
def commaGroupNat (n : Nat) : String :=
  String.mk (List.intercalate [','] (groupsOfThree (toString n).data.reverse)).reverse

/-- Python `format(n, ",")` for an integer. -/
def commaGroupInt (n : Int) : String :=
  if n < 0 then "-" ++ commaGroupNat n.natAbs else commaGroupNat n.natAbs

/-- Number of start positions at which `pat` occurs in the list. -/
def countRuns (pat : List Char) : List Char → Nat
  | [] => if pat.isEmpty then 1 else 0
  | c :: rest => (if leadsWith pat (c :: rest) then 1 else 0) + countRuns pat rest

/-- Number of occurrences (start positions) of `pat` inside `s`. -/
def strCountOcc (s pat : String) : Nat := countRuns pat.data s.data

/-! ### Data model -/

/-- A CKAN resource as the tools read it: each field holds the value of
`resource.get(key)`; `datastore_active` is the Python truthiness of that key. -/
structure Resource where
  name : Option String
  id : Option String
  format : Option String
  mimetype : Option String
  url : Option String
  datastore_active : Bool
deriving DecidableEq

/-- The `package_show` result payload.  `title`, `notes`, `organization.title`
and `resources` are the only keys the embedded tools read. -/
structure DatasetInfo where
  title : Option String
  notes : Option String
  org_title : Option String
  resources : Option (List Resource)
deriving DecidableEq

/-- A field descriptor from a datastore probe (`{"id": ..., "type": ...}`). -/
structure DataField where
  id : String
  ftype : String
deriving DecidableEq

/-- A record: ordered key/value pairs, values in their printed form. -/
abbrev Record := List (String × String)

/-- Outcome of `make_api_request`: either the catalog's success payload, or a
failure whose `error` value is read with `.get('error', 'Unknown error')`. -/
inductive Result (α : Type) where
  | success (payload : α)
  | failure (error : Option String)
deriving DecidableEq

/-- Payload of the zero-row schema probe used by the smart helper. -/
structure SchemaPayload where
  fields : List DataField
deriving DecidableEq

/-- Payload of the sample query used by the smart helper (`records` and
`total` read with `.get`; totals returned by the catalog are numeric). -/
structure SamplePayload where
  records : Option (List Record)
  total : Option Int
deriving DecidableEq

/-- Payload of a `datastore_search` query (records read with `.get`). -/
structure QueryPayload where
  records : Option (List Record)
deriving DecidableEq

/-- A JSON scalar as it may appear under `"total"` in the stats probe; the
stats tool's rendering depends on its runtime type. -/
inductive PyVal where
  | int (n : Int)
  | str (s : String)
deriving DecidableEq

/-- Payload of the zero-row stats probe (`toronto_get_dataset_stats`). -/
structure StatsPayload where
  total : Option PyVal
  fields : List DataField
deriving DecidableEq

/-! ### The downloadable-format test, inlined at four sites in main.py -/

/-- Lines 203-209 (`toronto_smart_data_helper`). -/
def is_downloadable_helper (r : Resource) : Bool :=
  let resource_format := pyUpper (r.format.getD "")
  let resource_mimetype := pyLower (r.mimetype.getD "")
  (resource_format == "CSV" || resource_format == "XLS" || resource_format == "XLSX") ||
    strContains resource_mimetype "text/csv" ||
    strContains resource_mimetype "excel" ||
    strContains resource_mimetype "spreadsheet"

/-- Lines 374-380 (`toronto_get_dataset_schema`). -/
def is_downloadable_schema (r : Resource) : Bool :=
  let resource_format := pyUpper (r.format.getD "")
  let resource_mimetype := pyLower (r.mimetype.getD "")
  (resource_format == "CSV" || resource_format == "XLS" || resource_format == "XLSX") ||
    strContains resource_mimetype "text/csv" ||
    strContains resource_mimetype "excel" ||
    strContains resource_mimetype "spreadsheet"

/-- Lines 484-490 (`toronto_query_dataset_data`). -/
def is_downloadable_query (r : Resource) : Bool :=
  let resource_format := pyUpper (r.format.getD "")
  let resource_mimetype := pyLower (r.mimetype.getD "")
  (resource_format == "CSV" || resource_format == "XLS" || resource_format == "XLSX") ||
    strContains resource_mimetype "text/csv" ||
    strContains resource_mimetype "excel" ||
    strContains resource_mimetype "spreadsheet"

/-- Lines 568-573 (`toronto_get_dataset_stats`). -/
def is_downloadable_stats (r : Resource) : Bool :=
  let resource_format := pyUpper (r.format.getD "")
  let resource_mimetype := pyLower (r.mimetype.getD "")
  (resource_format == "CSV" || resource_format == "XLS" || resource_format == "XLSX") ||
    strContains resource_mimetype "text/csv" ||
    strContains resource_mimetype "excel" ||
    strContains resource_mimetype "spreadsheet"

/-! ### Live-resource selection (first-match loops) -/

/-- Loop at lines 151-155: the first `datastore_active` resource, kept whole
(`toronto_smart_data_helper`). -/
def find_active_resource : List Resource → Option Resource
  | [] => none
  | r :: rest => if r.datastore_active then some r else find_active_resource rest

/-- Loops at lines 363-367, 439-443 and 538-542: the first `datastore_active`
resource's `id` value (schema, query and stats tools). -/
def find_active_id : List Resource → Option String
  | [] => none
  | r :: rest => if r.datastore_active then r.id else find_active_id rest

/-! ### Static-resource collection -/

/-- Projection stored by the smart helper for a downloadable resource
(lines 210-215): name defaulted to `"Unknown"`, raw `url` and `id`, and the
upper-cased format. -/
structure DownloadRes where
  name : String
  url : Option String
  id : Option String
  format : String
deriving DecidableEq

/-- Lines 201-215: the smart helper collects every resource passing the
downloadable-format test. -/
def helper_collect : List Resource → List DownloadRes
  | [] => []
  | r :: rest =>
    if is_downloadable_helper r then
      ⟨r.name.getD "Unknown", r.url, r.id, pyUpper (r.format.getD "")⟩ :: helper_collect rest
    else helper_collect rest

/-- Projection stored by the query dispatcher for a downloadable resource
(lines 491-496): name defaulted to the dataset id, the (truthy) url, and the
upper-cased format. -/
structure QueryDownloadRes where
  name : String
  url : String
  format : String
deriving DecidableEq

/-- Lines 482-496: the query dispatcher runs the same format/MIME test but
keeps a resource only when its `url` is truthy. -/
def query_collect (dataset_id : String) : List Resource → List QueryDownloadRes
  | [] => []
  | r :: rest =>
    if is_downloadable_query r then
      if truthy r.url then
        ⟨r.name.getD dataset_id, r.url.getD "", pyUpper (r.format.getD "")⟩ ::
          query_collect dataset_id rest
      else query_collect dataset_id rest
    else query_collect dataset_id rest

/-! ### Query dispatcher (toronto_query_dataset_data, lines 410-518) -/

/-- Lines 474-478: the dedicated filtering-error guidance. -/
def filtering_error_message (dataset_id error_msg : String) : String :=
  "❌ **Filtering Error**: " ++ error_msg ++ "\n\n" ++
  "💡 **Quick Fix**: \n" ++
  "1. Get correct field names: toronto_get_dataset_schema(dataset_id='" ++ dataset_id ++ "')\n" ++
  "2. Use exact field names in filters (case-sensitive)\n" ++
  "3. Or try: toronto_smart_data_helper(dataset_id='" ++ dataset_id ++ "', user_question='your question')"

/-- Lines 499-500: no live resource and no downloadable resource found. -/
def none_found_message (dataset_id : String) : String :=
  "⚠️ No active datastore or downloadable resource found for dataset: " ++ dataset_id ++
  ". Use `datasets://" ++ dataset_id ++ "` to see all available resources and their formats."

/-- Lines 501-510: exactly one downloadable resource found. -/
def single_resource_message (title : String) (r : QueryDownloadRes) : String :=
  "📁 This dataset ('" ++ title ++ "') does not have a queryable API (active datastore). " ++
  "A single " ++ r.format ++ " file resource was found:\n" ++
  "📝 **Resource Name**: " ++ r.name ++ "\n" ++
  "🔗 **Download URL**: " ++ r.url ++ "\n" ++
  "💡 **Access Method**: " ++
  (if r.format == "CSV" then "use toronto_fetch_csv_data() to get content"
   else "download and open manually") ++
  "\n💡 **Note**: API-based filtering, field selection, sorting, and limits are not applicable. Please download and process the file manually."

/-- Lines 511-518: several downloadable resources found. -/
def multi_resource_message (dataset_id title : String) (csv_count xls_count : Nat) : String :=
  "📁 This dataset ('" ++ title ++ "') does not have a queryable API (active datastore) " ++
  "but offers multiple downloadable resources (" ++ toString csv_count ++ " CSV, " ++
  toString xls_count ++ " XLS/XLSX files). To select a specific file (e.g., for a particular year), " ++
  "call `datasets://" ++ dataset_id ++ "` to list all available files and their download URLs. " ++
  "For CSV files, use 'toronto_fetch_csv_data' to get content. For XLS/XLSX files, download manually."

/-- Lines 466-468 (and 180-184 in the helper): one record's key/value lines,
skipping the internal `_id` key. -/
def format_record_lines (record : Record) : List String :=
  record.filterMap fun kv =>
    if kv.1 == "_id" then none else some ("  • " ++ kv.1 ++ ": " ++ kv.2)

/-- Lines 464-469: records rendered with `enumerate(results, 1)`. -/
def query_records_lines (i : Nat) : List Record → List String
  | [] => []
  | record :: rest =>
    ("**Record " ++ toString i ++ ":**") ::
      (format_record_lines record ++ [""] ++ query_records_lines (i + 1) rest)

/-- Lines 445-479: the live-datastore branch of the dispatcher, rendering the
(given) `datastore_search` response. -/
def live_branch_output (dataset_id title : String) (query_data : Result QueryPayload) : String :=
  match query_data with
  | .success qp =>
    let results := qp.records.getD []
    if results.isEmpty then
      "🔍 No data found in the active datastore for dataset: " ++ dataset_id ++
        " with the given parameters."
    else
      joinLines (("📊 **Query Results for " ++ title ++ ":**\n") :: query_records_lines 1 results)
  | .failure e =>
    let error_msg := e.getD "Unknown error"
    if strContains (pyLower error_msg) "field" || strContains (pyLower error_msg) "column" then
      filtering_error_message dataset_id error_msg
    else
      "❌ Error querying dataset " ++ dataset_id ++ ": " ++ error_msg

/-- Lines 481-518: the downloadable-file branch of the dispatcher. -/
def static_branch_output (dataset_id title : String) (resources : List Resource) : String :=
  match query_collect dataset_id resources with
  | [] => none_found_message dataset_id
  | [r] => single_resource_message title r
  | found =>
    multi_resource_message dataset_id title
      (found.filter (fun r => r.format == "CSV")).length
      (found.filter (fun r => r.format == "XLS" || r.format == "XLSX")).length

/-- `toronto_query_dataset_data` (lines 410-518).  The `package_show` and
`datastore_search` responses are inputs; the Bool records whether the
follow-up `datastore_search` call was issued.  The caller's
filters/fields/limit/sort only shape that outbound request and are subsumed
by the given response. -/
def toronto_query_dataset_data (dataset_id : String) (pkg : Result DatasetInfo)
    (query_data : Result QueryPayload) : String × Bool :=
  match pkg with
  | .failure e =>
    ("❌ Error fetching dataset details for: " ++ dataset_id ++ ". Error: " ++
       e.getD "Unknown error", false)
  | .success info =>
    let resources := info.resources.getD []
    if truthy (find_active_id resources) then
      (live_branch_output dataset_id (info.title.getD dataset_id) query_data, true)
    else
      (static_branch_output dataset_id (info.title.getD dataset_id) resources, false)

/-! ### Statistics tool (toronto_get_dataset_stats, lines 521-584) -/

/-- Python `format(value, ",")` as used in the f-string `"{total_records:,}"`
(line 552): digit-groups an integer, raises `ValueError` for a string value
(such as the `"N/A"` default installed by `.get("total", "N/A")`). -/
def format_comma : PyVal → Except String String
  | .int n => .ok (commaGroupInt n)
  | .str _ => .error "ValueError: Cannot specify ',' with 's'."

/-- Lines 566-577: download hints listed when no datastore is active. -/
def stats_downloadable_info : List Resource → List String
  | [] => []
  | r :: rest =>
    (if is_downloadable_stats r then
      ("• Name: " ++ r.name.getD "N/A" ++ ", Format: " ++ pyUpper (r.format.getD "")) ::
        (if truthy r.url then ["  URL: " ++ r.url.getD ""] else [])
     else []) ++ stats_downloadable_info rest

/-- `toronto_get_dataset_stats` (lines 521-584).  The `package_show` and
zero-row `datastore_search` responses are inputs.  An uncaught Python
exception raised while the report is built is `Except.error`; a returned
report is `Except.ok`. -/
def toronto_get_dataset_stats (dataset_id : String) (pkg : Result DatasetInfo)
    (stats_data : Result StatsPayload) : Except String String :=
  match pkg with
  | .failure e =>
    .ok ("❌ Error fetching dataset details for: " ++ dataset_id ++ ". Error: " ++
      e.getD "Unknown error")
  | .success info =>
    let resources := info.resources.getD []
    let dataset_title := info.title.getD dataset_id
    let head := ["📈 **Statistics for " ++ dataset_title ++ ":**",
                 "📋 Total resources listed: " ++ toString resources.length]
    if truthy (find_active_id resources) then
      match stats_data with
      | .success sp => do
        let total_fmt ← format_comma (sp.total.getD (.str "N/A"))
        .ok (joinLines (head ++
          ["✅ **Active Datastore Record Count**: " ++ total_fmt,
           "📋 **Active Datastore Field Count**: " ++ toString sp.fields.length] ++
          (if sp.fields.isEmpty then ["⚠️ No fields found in the active datastore."]
           else "\n**Active Datastore Fields:**" ::
             sp.fields.map (fun f => "• " ++ f.id ++ ": " ++ f.ftype))))
      | .failure e =>
        .ok (joinLines (head ++
          ["❌ Could not retrieve statistics from the active datastore. Error: " ++
            e.getD "Unknown error"]))
    else
      .ok (joinLines (head ++
        ["📁 No active datastore found for this dataset.",
         "   Therefore, record count and field list from an API datastore are not available."] ++
        (let dinfo := stats_downloadable_info resources
         if dinfo.isEmpty then
           ["⚠️ No downloadable resources (CSV/XLS/XLSX) found for manual inspection."]
         else
           "\n**Downloadable Resources Found** (download and inspect manually for record count/schema):" ::
             dinfo)))

/-! ### Dataset detail view (get_dataset_details, lines 286-321) -/

/-- Lines 305-318: per-resource lines of the detail view (`enumerate`). -/
def details_resource_lines (i : Nat) : List Resource → List String
  | [] => []
  | r :: rest =>
    (["\n**Resource " ++ toString (i + 1) ++ ":**",
      "  📝 Name: " ++ r.name.getD "N/A",
      "  🆔 ID: " ++ r.id.getD "N/A",
      "  📄 Format: " ++ r.format.getD "N/A"] ++
     (if r.datastore_active then ["  ✅ Type: Active Datastore (Queryable via API)"]
      else ["  📁 Type: Downloadable File"] ++
        (if truthy r.url then ["  🔗 Download URL: " ++ r.url.getD ""]
         else ["  ⚠️ Download URL: Not available"]))) ++
    details_resource_lines (i + 1) rest

/-- `get_dataset_details` (lines 286-321).  The payload keys `title`,
`notes`, `organization.title` and `resources` are read with plain indexing,
so a missing key raises (`Except.error`). -/
def get_dataset_details (dataset_id : String) (pkg : Result DatasetInfo) :
    Except String String :=
  match pkg with
  | .failure _ => .ok ("❌ Error fetching dataset: " ++ dataset_id)
  | .success dataset =>
    match dataset.title, dataset.notes, dataset.org_title, dataset.resources with
    | some title, some notes, some org, some resources =>
      .ok (joinLines (["📊 **Dataset**: " ++ title,
                     "📝 **Description**: " ++ notes,
                     "🏛️ **Organization**: " ++ org,
                     "📋 **Total Resources**: " ++ toString resources.length,
                     "\n**Resources:**"] ++
      (if resources.isEmpty then ["- No resources found for this dataset."]
       else details_resource_lines 0 resources)))
    | _, _, _, _ => .error "KeyError"

/-! ### Smart helper (toronto_smart_data_helper, lines 134-259) -/

/-- Lines 180-184: sample records rendered with `enumerate(records)`. -/
def sample_record_lines (i : Nat) : List Record → List String
  | [] => []
  | record :: rest =>
    ("\n**Record " ++ toString (i + 1) ++ ":**") ::
      (format_record_lines record ++ sample_record_lines (i + 1) rest)

/-- Lines 219-222: listing of the collected downloadable resources. -/
def helper_list_lines (i : Nat) : List DownloadRes → List String
  | [] => []
  | r :: rest =>
    ("  " ++ toString (i + 1) ++ ". " ++ r.name ++ " (" ++ r.format ++ ")") ::
      ((if truthy r.url then ["     URL: " ++ r.url.getD ""] else []) ++
        helper_list_lines (i + 1) rest)

/-- Lines 249-257: the guidance appended to every successful helper report. -/
def helper_tail (user_question : String) : List String :=
  ["\n🎯 **For your question**: \"" ++ user_question ++ "\"",
   "\n💡 **Need more specific data?**",
   "   • **If you need exact matches**: Web search can help find precise names, IDs, or identifiers",
   "   • **For filtering**: Use toronto_query_dataset_data() with exact field names from the schema above",
   "   • **For context**: Combine this official data with web search for recent news or additional details",
   "\nThe data above should help answer your question. If you need specific filtering or more data, use the suggested next steps!"]

/-- Lines 157-195: the API-data branch of the smart helper; the schema probe
and sample query responses are inputs. -/
def helper_active_lines (limit : Nat) (schema_data : Result SchemaPayload)
    (sample_data : Result SamplePayload) : List String :=
  "✅ **Type**: API Data (queryable)" ::
  (match schema_data with
   | .success sch =>
     ("📋 **Available fields**: " ++ joinWith ", " (sch.fields.map (fun f => f.id))) ::
     (match sample_data with
      | .success smp =>
        let records := smp.records.getD []
        let total_records := smp.total.getD 0
        ["📈 **Total records**: " ++ commaGroupInt total_records,
         "📄 **Sample data** (showing " ++ toString (min limit records.length) ++ " records):"] ++
        (if records.isEmpty then ["⚠️ No records found in this dataset."]
         else
           sample_record_lines 0 records ++
           ["\n💡 **Next steps for filtering/sorting**: Use toronto_query_dataset_data() with:",
            "   • filters=\x7b\"field_name\": \"value\"\x7d",
            "   • sort=\"field_name asc\" or \"field_name desc\"",
            "   • Available fields: " ++
              joinWith ", " ((sch.fields.map (fun f => f.id)).filter (fun fid => fid != "_id"))])
      | .failure _ => ["❌ Could not retrieve sample data from API."])
   | .failure _ => ["❌ Could not retrieve field information."])

/-- Lines 197-246: the downloadable-file branch of the smart helper; the
result of the nested `toronto_fetch_csv_data(csv_url, 10)` call (which always
returns text) is an input. -/
def helper_download_lines (dataset_id : String) (resources : List Resource)
    (fetch_output : String) : List String :=
  "📁 **Type**: Downloadable Files" ::
  (let downloadable_resources := helper_collect resources
   if downloadable_resources.isEmpty then
     ["⚠️ No downloadable files found. Check `datasets://{dataset_id}` for other resource types."]
   else
     ("📊 **Found " ++ toString downloadable_resources.length ++ " downloadable file(s):**") ::
     helper_list_lines 0 downloadable_resources ++
     (let csv_resources := downloadable_resources.filter (fun r => r.format == "CSV")
      if csv_resources.length == 1 && downloadable_resources.length == 1 then
        let c := csv_resources.headD ⟨"", none, none, ""⟩
        if truthy c.url then
          ["\n🔄 **Auto-fetching sample data from**: " ++ c.name,
           "📄 **Sample CSV content**:",
           fetch_output,
           "\n💡 **To get more data**: Use toronto_fetch_csv_data(csv_url=\"" ++
             c.url.getD "" ++ "\", max_lines=100)"]
        else []
      else
        "\n💡 **How to access the data:**" ::
        ((if csv_resources.isEmpty then [] else
           ["   • **For CSV files**: Use toronto_fetch_csv_data(csv_url=\"URL_of_specific_file\")"]) ++
         (if (downloadable_resources.filter
               (fun r => r.format == "XLS" || r.format == "XLSX")).isEmpty then [] else
           ["   • **For XLS/XLSX files**: Download manually from the URLs above"]) ++
         ["   • **See all details**: Use `datasets://" ++ dataset_id ++
            "` to see all resource details"])))

/-- `toronto_smart_data_helper` (lines 134-259); the nested API responses and
the nested CSV fetch's text result are inputs. -/
def toronto_smart_data_helper (dataset_id user_question : String) (limit : Nat)
    (pkg : Result DatasetInfo) (schema_data : Result SchemaPayload)
    (sample_data : Result SamplePayload) (fetch_output : String) : String :=
  match pkg with
  | .failure _ =>
    "❌ Error: Could not find dataset '" ++ dataset_id ++
      "'. Try searching again with toronto_search_datasets()."
  | .success info =>
    let resources := info.resources.getD []
    let dataset_title := info.title.getD dataset_id
    let branch : List String :=
      match find_active_resource resources with
      | some _ => helper_active_lines limit schema_data sample_data
      | none => helper_download_lines dataset_id resources fetch_output
    joinLines (("📊 **" ++ dataset_title ++ "**") :: branch ++ helper_tail user_question)

/-! ### Line-bounded file fetcher (toronto_fetch_csv_data, lines 586-636) -/

/-- UTF-8 continuation byte. -/
def utf8Cont (b : Nat) : Bool := 128 ≤ b && b < 192

/-- Python `bytes.decode('utf-8')`: strict UTF-8, rejecting truncated and
overlong sequences, surrogates and code points past U+10FFFF. -/
def utf8Decode : List Nat → Option (List Char)
  | [] => some []
  | b :: rest =>
    if b < 128 then (utf8Decode rest).map (fun cs => Char.ofNat b :: cs)
    else if b < 194 then none
    else if b < 224 then
      match rest with
      | b1 :: rest2 =>
        if utf8Cont b1 then
          (utf8Decode rest2).map (fun cs => Char.ofNat ((b - 192) * 64 + (b1 - 128)) :: cs)
        else none
      | [] => none
    else if b < 240 then
      match rest with
      | b1 :: b2 :: rest3 =>
        if utf8Cont b1 && utf8Cont b2 then
          let cp := (b - 224) * 4096 + (b1 - 128) * 64 + (b2 - 128)
          if cp < 2048 || (55296 ≤ cp && cp < 57344) then none
          else (utf8Decode rest3).map (fun cs => Char.ofNat cp :: cs)
        else none
      | _ => none
    else if b < 245 then
      match rest with
      | b1 :: b2 :: b3 :: rest4 =>
        if utf8Cont b1 && utf8Cont b2 && utf8Cont b3 then
          let cp := (b - 240) * 262144 + (b1 - 128) * 4096 + (b2 - 128) * 64 + (b3 - 128)
          if cp < 65536 || 1114111 < cp then none
          else (utf8Decode rest4).map (fun cs => Char.ofNat cp :: cs)
        else none
      | _ => none
    else none

/-- Python `bytes.decode('latin-1')`: every byte value maps to the code point
of the same value (total on genuine bytes, i.e. values below 256). -/
def latin1Decode (l : List Nat) : Option (List Char) :=
  if l.all (fun b => decide (b < 256)) then some (l.map (fun b => Char.ofNat b)) else none

/-- Python `.rstrip("\r\n")`: drop every trailing CR or LF. -/
def rstripCRLF (cs : List Char) : List Char :=
  (cs.reverse.dropWhile (fun c => c == '\r' || c == '\n')).reverse

/-- Lines 604-611: decode one raw line as UTF-8 and strip the line ending,
falling back to Latin-1 when UTF-8 decoding raises. -/
def decodeLine (line_bytes : List Nat) : Option String :=
  match utf8Decode line_bytes with
  | some cs => some (String.mk (rstripCRLF cs))
  | none =>
    match latin1Decode line_bytes with
    | some cs => some (String.mk (rstripCRLF cs))
    | none => none

/-- The read loop of lines 599-611: reads at most the given number of lines,
breaking at end of stream (an empty `readline` result); `i` is the 0-based
loop index reported in the decode error.  Returns the decoded lines and the
unread remainder of the stream. -/
def readLinesAux (i : Nat) : Nat → List (List Nat) → Except Nat (List String × List (List Nat))
  | 0, stream => .ok ([], stream)
  | _ + 1, [] => .ok ([], [])
  | k + 1, line :: rest =>
    if line.isEmpty then .ok ([], [])
    else
      match decodeLine line with
      | none => .error (i + 1)
      | some s =>
        match readLinesAux (i + 1) k rest with
        | .error e => .error e
        | .ok (ls, st) => .ok (s :: ls, st)

/-- The read loop started at index 0. -/
def readLines (max_lines : Nat) (stream : List (List Nat)) :
    Except Nat (List String × List (List Nat)) :=
  readLinesAux 0 max_lines stream

/-- Line 625: the truncated result, carrying the more-data annotation. -/
def trunc_message (max_lines : Nat) (output_data : String) : String :=
  "📄 **First " ++ toString max_lines ++ " lines of CSV data:**\n" ++ output_data ++
  "\n\n... (file truncated, more data exists)"

/-- Line 627: the complete result (no annotation). -/
def complete_message (count : Nat) (output_data : String) : String :=
  "📄 **CSV data (all " ++ toString count ++ " lines):**\n" ++ output_data

/-- Line 622: the empty-file result. -/
def empty_file_message : String := "⚠️ File appears to be empty or no content could be read."

/-- `toronto_fetch_csv_data` (lines 586-636).  The HTTP response is an input:
its status code and the stream of raw lines `readline` yields (`readline`
returns empty exactly at end of stream, so the lines are non-empty). -/
def toronto_fetch_csv_data (csv_url : String) (status : Nat) (stream : List (List Nat))
    (max_lines : Nat) : String :=
  if !strStartsWith csv_url "http://" && !strStartsWith csv_url "https://" then
    "❌ Error: Invalid URL. Must start with http:// or https://"
  else if status != 200 then
    "❌ Error: Failed to download file. HTTP Status Code: " ++ toString status
  else
    match readLines max_lines stream with
    | .error i =>
      "❌ Error: Could not decode line " ++ toString i ++ " using utf-8 or latin-1 encoding."
    | .ok (lines, rest) =>
      let output_data := joinLines lines
      let more_content_exists := lines.length == max_lines && !(rest.headD []).isEmpty
      if output_data == "" then empty_file_message
      else if more_content_exists then trunc_message max_lines output_data
      else complete_message lines.length output_data

/-! ### Concrete payloads used by witnesses and counterexamples -/

/-- A live (datastore-active) resource with a truthy id. -/
def liveRes : Resource := ⟨some "live table", some "rid-live", none, none, none, true⟩

/-- A second live resource, to show first-match wins. -/
def liveRes2 : Resource := ⟨some "live table 2", some "rid-live-2", none, none, none, true⟩

/-- A static (non-live) resource that fails the downloadable-format test. -/
def plainRes : Resource := ⟨some "web page", some "rid-web", some "HTML", none, some "http://t/p", false⟩

/-- A static CSV resource with a URL. -/
def csvRes : Resource :=
  ⟨some "budget.csv", some "rid-csv", some "CSV", none, some "http://t/budget.csv", false⟩

/-- A static CSV resource whose `url` key is missing. -/
def csvResNoUrl : Resource := ⟨some "lost.csv", some "rid-lost", some "CSV", none, none, false⟩

/-- A dataset whose first resource is live (for the stats failing input). -/
def infoLive : DatasetInfo := ⟨some "Dinesafe", none, none, some [liveRes]⟩

/-- A dataset with a single static CSV resource (`budget-data` scenario). -/
def infoBudget : DatasetInfo := ⟨some "Budget Data", none, none, some [csvRes]⟩

/-- A dataset whose title recurs verbatim in its description. -/
def infoTwice : DatasetInfo := ⟨some "ZQXW", some "ZQXW dataset", some "City of Toronto", some []⟩

/-- A dataset for the report-title witness. -/
def infoParks : DatasetInfo := ⟨some "Parks Data", some "All parks", some "City of Toronto", some []⟩

/-- The detail-view report for `infoParks` (its `Except.ok` payload). -/
def parksDetailOut : String :=
  match get_dataset_details "parks" (.success infoParks) with
  | .ok s => s
  | .error e => e

/-- Whether an `Except` outcome is a success. -/
def exceptIsOk {ε α : Type} : Except ε α → Bool
  | .ok _ => true
  | .error _ => false

/-- The decoded lines of a successful read (empty on a decode error). -/
def linesOf (r : Except Nat (List String × List (List Nat))) : List String :=
  match r with
  | .ok p => p.1
  | .error _ => []

/-! ### Lemma toolkit -/

theorem strData_inj {s t : String} (h : s.data = t.data) : s = t := by
  cases s; cases t; exact congrArg String.mk h

theorem strData_append (s t : String) : (s ++ t).data = s.data ++ t.data := rfl

theorem strAppend_assoc (a b c : String) : (a ++ b) ++ c = a ++ (b ++ c) := by
  apply strData_inj
  simp only [strData_append, List.append_assoc]

theorem str_ne_of_data_ne (s t : String) (h : s.data ≠ t.data) : s ≠ t :=
  fun he => h (congrArg String.data he)

theorem ne_of_get_ne (u v : List Char) (n : Nat) (c d : Char)
    (h1 : u.get? n = some c) (h2 : v.get? n = some d) (hcd : c ≠ d) : u ≠ v := by
  intro h
  rw [h, h2] at h1
  exact hcd (Option.some.inj h1).symm

theorem get?_append_left (l₁ l₂ : List Char) (n : Nat) (c : Char)
    (h : l₁.get? n = some c) : (l₁ ++ l₂).get? n = some c := by
  have hl : n < l₁.length := by
    by_contra hn
    rw [List.get?_eq_none.2 (Nat.le_of_not_lt hn)] at h
    exact Option.noConfusion h
  rw [List.get?_append hl]
  exact h

theorem joinWith_cons (sep s a : String) (l : List String) :
    joinWith sep (s :: a :: l) = s ++ sep ++ joinWith sep (a :: l) := rfl

theorem leadsWith_append (p r : List Char) : leadsWith p (p ++ r) = true := by
  induction p with
  | nil => rfl
  | cons c cs ih => simp [leadsWith, ih]

theorem occursWithin_append (a p r : List Char) : occursWithin p (a ++ (p ++ r)) = true := by
  induction a with
  | nil =>
    rw [List.nil_append]
    cases hp : p ++ r with
    | nil =>
      have hpn : p = [] := (List.append_eq_nil.1 hp).1
      rw [hpn]
      rfl
    | cons c cs =>
      show (leadsWith p (c :: cs) || occursWithin p cs) = true
      rw [← hp, leadsWith_append, Bool.true_or]
  | cons c cs ih =>
    rw [List.cons_append, occursWithin, ih]
    simp

/-- Substring of a visible decomposition: Python `t in (a + t + b)`. -/
theorem strContains_mid (a t b : String) : strContains (a ++ (t ++ b)) t = true := by
  unfold strContains
  rw [strData_append, strData_append]
  exact occursWithin_append a.data t.data b.data

/-! ### Claim C10 -/

/-- C10: the downloadable-format test (format upper-cased in \x7bCSV, XLS, XLSX\x7d,
or MIME type lower-cased containing 'text/csv', 'excel' or 'spreadsheet') is
inlined in the smart helper, the schema tool, the query dispatcher and the
stats tool, and on every resource the four inlined copies compute the same
boolean value. -/
theorem downloadable_predicates_agree (r : Resource) :
    is_downloadable_helper r = is_downloadable_schema r ∧
    is_downloadable_helper r = is_downloadable_query r ∧
    is_downloadable_helper r = is_downloadable_stats r :=
  ⟨rfl, rfl, rfl⟩

/-! ### Claim C2 -/

/-- C2: for every resource list containing at least one `datastore_active`
resource (written `pre ++ r :: post` with no active resource in `pre`), the
classification loop used by the smart helper (`find_active_resource`) and the
one used by the query dispatcher, schema and stats tools (`find_active_id`)
both select exactly the first active resource, regardless of how many active
resources follow it. -/
theorem first_live_resource_selected (pre : List Resource) (r : Resource) (post : List Resource)
    (hpre : ∀ x ∈ pre, x.datastore_active = false) (hr : r.datastore_active = true) :
    find_active_resource (pre ++ r :: post) = some r ∧
    find_active_id (pre ++ r :: post) = r.id := by
  induction pre with
  | nil => simp [find_active_resource, find_active_id, hr]
  | cons a as ih =>
    have ha : a.datastore_active = false := hpre a (List.mem_cons_self a as)
    have has : ∀ x ∈ as, x.datastore_active = false := fun x hx => hpre x (List.mem_cons_of_mem a hx)
    simpa [find_active_resource, find_active_id, ha] using ih has

/-- Witness for C2: two live resources; the first is selected by both loops. -/
theorem first_live_resource_selected_witness :
    find_active_resource ([plainRes] ++ liveRes :: [liveRes2]) = some liveRes ∧
    find_active_id ([plainRes] ++ liveRes :: [liveRes2]) = liveRes.id :=
  first_live_resource_selected [plainRes] liveRes [liveRes2] (by decide) (by decide)

/-! ### Claim C1 -/

/-- C1 (failing input): when `package_show` succeeds with a live resource and
the `datastore_search` probe succeeds with a payload that lacks the `total`
key, the stats tool's rendering of the record count evaluates
`format(result.get("total", "N/A"), ",")` on the string `"N/A"`, which raises
an uncaught `ValueError` instead of returning a text result. -/
theorem stats_missing_total_raises :
    toronto_get_dataset_stats "dinesafe" (.success infoLive) (.success ⟨none, []⟩) =
      .error "ValueError: Cannot specify ',' with 's'." := rfl

/-! ### Claim C3 -/

/-- C3 (counterexample): a non-live CSV resource with no `url` key passes the
downloadable-format test, yet the query dispatcher's collection drops it
(lines 491-496 additionally require a truthy `url`), while the smart helper's
collection keeps it.  "Every matching resource is collected, with no further
condition" is therefore false for the dispatcher. -/
theorem static_collection_url_counterexample :
    is_downloadable_query csvResNoUrl = true ∧
    csvResNoUrl.datastore_active = false ∧
    query_collect "budget-data" [csvResNoUrl] = [] ∧
    helper_collect [csvResNoUrl] = [⟨"lost.csv", none, some "rid-lost", "CSV"⟩] := by
  refine ⟨by decide, rfl, by decide, by decide⟩

/-- C3 (amended): for every resource list, the smart helper's static
collection contains exactly the resources matching the format/MIME test, in
list order and with no further condition, while the query dispatcher's static
collection contains exactly the matching resources that also carry a truthy
URL, in list order. -/
theorem static_collection_exact (dataset_id : String) (rs : List Resource) :
    helper_collect rs = (rs.filter (fun r => is_downloadable_helper r)).map
        (fun r => (⟨r.name.getD "Unknown", r.url, r.id, pyUpper (r.format.getD "")⟩ : DownloadRes)) ∧
    query_collect dataset_id rs =
      (rs.filter (fun r => is_downloadable_query r && truthy r.url)).map
        (fun r => (⟨r.name.getD dataset_id, r.url.getD "",
            pyUpper (r.format.getD "")⟩ : QueryDownloadRes)) := by
  induction rs with
  | nil => exact ⟨rfl, rfl⟩
  | cons a as ih =>
    constructor
    · cases h : is_downloadable_helper a <;>
        simp [helper_collect, List.filter_cons, h, ih.1]
    · cases h1 : is_downloadable_query a <;> cases h2 : truthy a.url <;>
        simp [query_collect, List.filter_cons, h1, h2, ih.2]

/-! ### Claim C7 -/

/-- C7: for every URL accepted by the scheme check and every stream served
with status 200, calling the fetcher with `max_lines = 0` reads zero lines
and returns the "file appears to be empty" result, not an error, regardless
of the remote content. -/
theorem fetch_zero_maxlines_empty (csv_url : String) (stream : List (List Nat))
    (hurl : (strStartsWith csv_url "http://" || strStartsWith csv_url "https://") = true) :
    readLines 0 stream = .ok ([], stream) ∧
    toronto_fetch_csv_data csv_url 200 stream 0 = empty_file_message := by
  refine ⟨rfl, ?_⟩
  unfold toronto_fetch_csv_data
  have h1 : (!strStartsWith csv_url "http://" && !strStartsWith csv_url "https://") = false := by
    cases ha : strStartsWith csv_url "http://" <;>
      cases hb : strStartsWith csv_url "https://" <;> simp_all
  rw [h1]
  simp [readLines, readLinesAux, joinLines, joinWith]

/-- Witness for C7: a nonempty remote file still yields the empty result. -/
theorem fetch_zero_maxlines_empty_witness :
    readLines 0 [[104, 105, 10]] = .ok ([], [[104, 105, 10]]) ∧
    toronto_fetch_csv_data "https://t/x.csv" 200 [[104, 105, 10]] 0 = empty_file_message :=
  fetch_zero_maxlines_empty "https://t/x.csv" [[104, 105, 10]] (by decide)

/-! ### Claim C9 -/

theorem decodeLine_isSome (line : List Nat) (h : ∀ b ∈ line, b < 256) :
    (decodeLine line).isSome = true := by
  have hlat : latin1Decode line = some (line.map (fun b => Char.ofNat b)) := by
    unfold latin1Decode
    rw [if_pos (List.all_eq_true.2 (fun b hb => decide_eq_true (h b hb)))]
  unfold decodeLine
  cases hu : utf8Decode line
  · rw [hlat]
    rfl
  · rfl

theorem readLinesAux_isOk (n : Nat) (stream : List (List Nat)) (i : Nat)
    (h : ∀ l ∈ stream, ∀ b ∈ l, b < 256) :
    exceptIsOk (readLinesAux i n stream) = true := by
  induction n generalizing stream i with
  | zero => rfl
  | succ k ih =>
    cases stream with
    | nil => rfl
    | cons line rest =>
      cases hl : line.isEmpty
      · have hdec := decodeLine_isSome line (h line (List.mem_cons_self line rest))
        cases hd : decodeLine line with
        | none => rw [hd] at hdec; exact Bool.noConfusion hdec
        | some s =>
          have hrest : ∀ l ∈ rest, ∀ b ∈ l, b < 256 :=
            fun l hlm => h l (List.mem_cons_of_mem line hlm)
          have := ih rest (i + 1) hrest
          cases hp : readLinesAux (i + 1) k rest with
          | error e => rw [hp] at this; exact Bool.noConfusion this
          | ok p =>
            simp [readLinesAux, hl, hd, hp, exceptIsOk]
      · simp [readLinesAux, hl, exceptIsOk]

/-- C9: the Latin-1 fallback decode never fails on genuine bytes (every byte
value below 256 maps to a character), so every line read by the fetcher's
loop decodes via UTF-8 or via the fallback, and the "Could not decode line N"
error return of `toronto_fetch_csv_data` is unreachable. -/
theorem decode_fallback_total (stream : List (List Nat)) (max_lines : Nat)
    (h : ∀ l ∈ stream, ∀ b ∈ l, b < 256) :
    (∀ l ∈ stream, (decodeLine l).isSome = true) ∧
    exceptIsOk (readLines max_lines stream) = true :=
  ⟨fun l hl => decodeLine_isSome l (h l hl),
   readLinesAux_isOk max_lines stream 0 h⟩

/-- Witness for C9: a line that is not valid UTF-8 (a 0xFF byte) still
decodes, and the read loop succeeds on it. -/
theorem decode_fallback_total_witness :
    (decodeLine [255, 10]).isSome = true ∧
    exceptIsOk (readLines 5 [[255, 10]]) = true :=
  ⟨(decode_fallback_total [[255, 10]] 5 (by decide)).1 [255, 10]
      (List.mem_cons_self [255, 10] []),
   (decode_fallback_total [[255, 10]] 5 (by decide)).2⟩

/-! ### Claim C5 -/

theorem generic_ne_filtering (dataset_id error_msg : String) :
    "❌ Error querying dataset " ++ dataset_id ++ ": " ++ error_msg ≠
      filtering_error_message dataset_id error_msg := by
  apply str_ne_of_data_ne
  apply ne_of_get_ne _ _ 2 'E' '*'
  · simp only [strData_append, List.append_assoc]
    apply get?_append_left
    decide
  · unfold filtering_error_message
    simp only [strData_append, List.append_assoc]
    apply get?_append_left
    decide
  · decide

/-- C5 (counterexample): a query failure whose error text contains "column"
but not "field" still produces the dedicated filtering-error guidance
(line 473 also tests for the substring "column"), refuting "for every error
text not containing 'field' the output does not contain that guidance". -/
theorem filter_guidance_column_counterexample :
    strContains (pyLower "bad column x") "field" = false ∧
    (toronto_query_dataset_data "dinesafe" (.success infoLive)
        (.failure (some "bad column x"))).1 =
      filtering_error_message "dinesafe" "bad column x" ∧
    strContains (filtering_error_message "dinesafe" "bad column x")
      "toronto_get_dataset_schema" = true := by
  refine ⟨by decide, rfl, by decide⟩

/-- C5 (amended): on a failed datastore query the dispatcher's output is the
dedicated filtering-error guidance (which names the schema tool) exactly when
the lower-cased error text contains "field" or "column"; for error texts
containing neither substring the generic query-error message is returned
instead. -/
theorem filter_guidance_iff (dataset_id : String) (info : DatasetInfo) (e : Option String)
    (hactive : truthy (find_active_id (info.resources.getD [])) = true) :
    ((toronto_query_dataset_data dataset_id (.success info) (.failure e)).1 =
        filtering_error_message dataset_id (e.getD "Unknown error") ↔
      (strContains (pyLower (e.getD "Unknown error")) "field" ||
       strContains (pyLower (e.getD "Unknown error")) "column") = true) ∧
    strContains (filtering_error_message dataset_id (e.getD "Unknown error"))
      "toronto_get_dataset_schema" = true := by
  constructor
  · have hout : (toronto_query_dataset_data dataset_id (.success info) (.failure e)).1 =
        live_branch_output dataset_id (info.title.getD dataset_id) (.failure e) := by
      simp [toronto_query_dataset_data, hactive]
    rw [hout]
    unfold live_branch_output
    cases hc : (strContains (pyLower (e.getD "Unknown error")) "field" ||
        strContains (pyLower (e.getD "Unknown error")) "column")
    · simp only [hc, Bool.false_eq_true, if_false]
      constructor
      · intro h
        exact absurd h (generic_ne_filtering dataset_id (e.getD "Unknown error"))
      · intro h
        exact h.elim
    · simp only [hc, if_true]
  · have hsplit :
        ("1. Get correct field names: toronto_get_dataset_schema(dataset_id='" : String) =
          "1. Get correct field names: " ++
            ("toronto_get_dataset_schema" ++ "(dataset_id='") := by decide
    have hmsg : filtering_error_message dataset_id (e.getD "Unknown error") =
        ("❌ **Filtering Error**: " ++ ((e.getD "Unknown error") ++ ("\n\n" ++
          ("💡 **Quick Fix**: \n" ++ "1. Get correct field names: ")))) ++
        ("toronto_get_dataset_schema" ++
          ("(dataset_id='" ++ (dataset_id ++ ("')\n" ++
            ("2. Use exact field names in filters (case-sensitive)\n" ++
              ("3. Or try: toronto_smart_data_helper(dataset_id='" ++
                (dataset_id ++ "', user_question='your question')"))))))) := by
      unfold filtering_error_message
      rw [hsplit]
      simp only [strAppend_assoc]
    rw [hmsg]
    exact strContains_mid _ _ _

/-- Witness for C5's amended theorem: an error text containing neither
substring yields an output that is not the guidance message. -/
theorem filter_guidance_iff_witness :
    ((toronto_query_dataset_data "dinesafe" (.success infoLive)
        (.failure (some "server melted"))).1 =
      filtering_error_message "dinesafe" ((some "server melted").getD "Unknown error") ↔
      (strContains (pyLower ((some "server melted").getD "Unknown error")) "field" ||
       strContains (pyLower ((some "server melted").getD "Unknown error")) "column") = true) ∧
    strContains (filtering_error_message "dinesafe"
      ((some "server melted").getD "Unknown error")) "toronto_get_dataset_schema" = true :=
  filter_guidance_iff "dinesafe" infoLive (some "server melted") (by decide)

/-! ### Claim C8 -/

theorem strContains_joinLines_head (pre t : String) (rest : List String) (h : rest ≠ []) :
    strContains (joinLines ((pre ++ t) :: rest)) t = true := by
  cases rest with
  | nil => exact absurd rfl h
  | cons l2 r =>
    show strContains ((pre ++ t) ++ "\n" ++ joinWith "\n" (l2 :: r)) t = true
    have heq : (pre ++ t) ++ "\n" ++ joinWith "\n" (l2 :: r) =
        pre ++ (t ++ ("\n" ++ joinWith "\n" (l2 :: r))) := by
      simp only [strAppend_assoc]
    rw [heq]
    exact strContains_mid pre t ("\n" ++ joinWith "\n" (l2 :: r))

theorem strContains_joinLines_head2 (pre t post : String) (rest : List String) (h : rest ≠ []) :
    strContains (joinLines ((pre ++ t ++ post) :: rest)) t = true := by
  cases rest with
  | nil => exact absurd rfl h
  | cons l2 r =>
    show strContains ((pre ++ t ++ post) ++ "\n" ++ joinWith "\n" (l2 :: r)) t = true
    have heq : (pre ++ t ++ post) ++ "\n" ++ joinWith "\n" (l2 :: r) =
        pre ++ (t ++ (post ++ ("\n" ++ joinWith "\n" (l2 :: r)))) := by
      simp only [strAppend_assoc]
    rw [heq]
    exact strContains_mid _ _ _

/-- C8 (counterexample): a successful `package_show` payload whose
description repeats the title verbatim makes the detail-view report contain
the title twice, refuting "contains the dataset's title verbatim exactly
once". -/
theorem title_twice_counterexample :
    (get_dataset_details "budget-data" (.success infoTwice)).map
      (fun s => strCountOcc s "ZQXW") = Except.ok 2 := rfl

/-- C8 (amended): for every successful `package_show` payload carrying a
title, each formatted report built from it — the dataset detail view (when it
returns a report) and the smart-helper report — contains the dataset's title
verbatim at least once (the title may additionally occur inside other payload
fields, such as the description, so "exactly once" fails). -/
theorem reports_contain_title (dataset_id user_question : String) (limit : Nat)
    (info : DatasetInfo) (schema_data : Result SchemaPayload)
    (sample_data : Result SamplePayload) (fetch_output : String) (t : String)
    (ht : info.title = some t) :
    (∀ s, get_dataset_details dataset_id (.success info) = Except.ok s →
      strContains s t = true) ∧
    strContains (toronto_smart_data_helper dataset_id user_question limit (.success info)
      schema_data sample_data fetch_output) t = true := by
  obtain ⟨ti, no, orl, re⟩ := info
  replace ht : ti = some t := ht
  subst ht
  constructor
  · intro s hs
    cases no with
    | none => exact Except.noConfusion hs
    | some nt =>
      cases orl with
      | none => exact Except.noConfusion hs
      | some o =>
        cases re with
        | none => exact Except.noConfusion hs
        | some resources =>
          have hs2 := Except.ok.inj hs
          rw [← hs2]
          simp only [List.cons_append, List.nil_append]
          exact strContains_joinLines_head "📊 **Dataset**: " t _ (List.cons_ne_nil _ _)
  · have hout : toronto_smart_data_helper dataset_id user_question limit
        (.success ⟨some t, no, orl, re⟩) schema_data sample_data fetch_output =
        joinLines (("📊 **" ++ t ++ "**") ::
          ((match find_active_resource (re.getD []) with
            | some _ => helper_active_lines limit schema_data sample_data
            | none =>
              helper_download_lines dataset_id (re.getD []) fetch_output) ++
            helper_tail user_question)) := rfl
    rw [hout]
    apply strContains_joinLines_head2
    intro hnil
    exact absurd (List.append_eq_nil.1 hnil).2 (by simp [helper_tail])

/-- Witness for C8's amended theorem at a concrete payload. -/
theorem reports_contain_title_witness :
    strContains parksDetailOut "Parks Data" = true ∧
    strContains (toronto_smart_data_helper "parks" "q" 10 (.success infoParks)
      (.failure none) (.failure none) "") "Parks Data" = true :=
  ⟨(reports_contain_title "parks" "q" 10 infoParks (.failure none) (.failure none) ""
      "Parks Data" rfl).1 parksDetailOut rfl,
   (reports_contain_title "parks" "q" 10 infoParks (.failure none) (.failure none) ""
      "Parks Data" rfl).2⟩

/-! ### Claim C4 -/

theorem none_found_ne_single (dataset_id title : String) (r : QueryDownloadRes) :
    none_found_message dataset_id ≠ single_resource_message title r := by
  apply str_ne_of_data_ne
  apply ne_of_get_ne _ _ 0 '⚠' '📁'
  · unfold none_found_message
    simp only [strData_append, List.append_assoc]
    apply get?_append_left
    decide
  · unfold single_resource_message
    simp only [strData_append, List.append_assoc]
    apply get?_append_left
    decide
  · decide

theorem multi_ne_single (dataset_id title : String) (c x : Nat) (r : QueryDownloadRes) :
    multi_resource_message dataset_id title c x ≠ single_resource_message title r := by
  intro h
  have hd := congrArg String.data h
  simp only [multi_resource_message, single_resource_message, strData_append,
    List.append_assoc] at hd
  have hd2 := List.append_cancel_left hd
  have hd3 := List.append_cancel_left hd2
  revert hd3
  apply ne_of_get_ne _ _ 51 ' ' '.'
  · apply get?_append_left
    decide
  · apply get?_append_left
    decide
  · decide

/-- C4: for every dataset payload with no (truthy) live resource, the query
dispatcher returns the single-static-resource message exactly when its static
collection holds exactly one resource; in that case the message carries the
resource's name, URL and the format-conditioned access hint (CSV points at
the CSV fetcher, anything else at manual download), and no `datastore_search`
query is issued in this branch. -/
theorem static_single_dispatch (dataset_id : String) (info : DatasetInfo)
    (query_data : Result QueryPayload)
    (hactive : truthy (find_active_id (info.resources.getD [])) = false) :
    (toronto_query_dataset_data dataset_id (.success info) query_data).2 = false ∧
    ((toronto_query_dataset_data dataset_id (.success info) query_data).1 =
        single_resource_message (info.title.getD dataset_id)
          ((query_collect dataset_id (info.resources.getD [])).headD ⟨dataset_id, "", ""⟩) ↔
      (query_collect dataset_id (info.resources.getD [])).length = 1) ∧
    (∀ r, query_collect dataset_id (info.resources.getD []) = [r] →
      (toronto_query_dataset_data dataset_id (.success info) query_data).1 =
        single_resource_message (info.title.getD dataset_id) r ∧
      strContains ((toronto_query_dataset_data dataset_id (.success info) query_data).1)
        r.name = true ∧
      strContains ((toronto_query_dataset_data dataset_id (.success info) query_data).1)
        r.url = true ∧
      strContains ((toronto_query_dataset_data dataset_id (.success info) query_data).1)
        (if r.format == "CSV" then "use toronto_fetch_csv_data() to get content"
         else "download and open manually") = true) := by
  have hout : toronto_query_dataset_data dataset_id (.success info) query_data =
      (static_branch_output dataset_id (info.title.getD dataset_id)
        (info.resources.getD []), false) := by
    simp [toronto_query_dataset_data, hactive]
  rw [hout]
  refine ⟨rfl, ?_, ?_⟩
  · cases hq : query_collect dataset_id (info.resources.getD []) with
    | nil =>
      simp only [static_branch_output, hq, List.length_nil]
      constructor
      · intro h
        exact absurd h (none_found_ne_single dataset_id (info.title.getD dataset_id) _)
      · intro h
        exact absurd h (by decide)
    | cons r0 tl =>
      cases tl with
      | nil =>
        simp only [static_branch_output, hq, List.headD_cons, List.length_cons,
          List.length_nil]
      | cons r1 tl2 =>
        simp only [static_branch_output, hq, List.length_cons]
        constructor
        · intro h
          exact absurd h (multi_ne_single dataset_id (info.title.getD dataset_id) _ _ _)
        · intro h
          omega
  · intro r hr
    have hstat : static_branch_output dataset_id (info.title.getD dataset_id)
        (info.resources.getD []) = single_resource_message (info.title.getD dataset_id) r := by
      simp only [static_branch_output, hr]
    refine ⟨hstat, ?_, ?_, ?_⟩
    · have hmid : single_resource_message (info.title.getD dataset_id) r =
          ("📁 This dataset ('" ++ ((info.title.getD dataset_id) ++
            ("') does not have a queryable API (active datastore). " ++ ("A single " ++
              (r.format ++ (" file resource was found:\n" ++ "📝 **Resource Name**: ")))))) ++
          (r.name ++ ("\n" ++ ("🔗 **Download URL**: " ++ (r.url ++ ("\n" ++
            ("💡 **Access Method**: " ++
              ((if r.format == "CSV" then "use toronto_fetch_csv_data() to get content"
                else "download and open manually") ++
                "\n💡 **Note**: API-based filtering, field selection, sorting, and limits are not applicable. Please download and process the file manually."))))))) := by
        simp only [single_resource_message, strAppend_assoc]
      rw [hstat, hmid]
      exact strContains_mid _ _ _
    · have hmid : single_resource_message (info.title.getD dataset_id) r =
          ("📁 This dataset ('" ++ ((info.title.getD dataset_id) ++
            ("') does not have a queryable API (active datastore). " ++ ("A single " ++
              (r.format ++ (" file resource was found:\n" ++ ("📝 **Resource Name**: " ++
                (r.name ++ ("\n" ++ "🔗 **Download URL**: "))))))))) ++
          (r.url ++ ("\n" ++ ("💡 **Access Method**: " ++
            ((if r.format == "CSV" then "use toronto_fetch_csv_data() to get content"
              else "download and open manually") ++
              "\n💡 **Note**: API-based filtering, field selection, sorting, and limits are not applicable. Please download and process the file manually.")))) := by
        simp only [single_resource_message, strAppend_assoc]
      rw [hstat, hmid]
      exact strContains_mid _ _ _
    · have hmid : single_resource_message (info.title.getD dataset_id) r =
          ("📁 This dataset ('" ++ ((info.title.getD dataset_id) ++
            ("') does not have a queryable API (active datastore). " ++ ("A single " ++
              (r.format ++ (" file resource was found:\n" ++ ("📝 **Resource Name**: " ++
                (r.name ++ ("\n" ++ ("🔗 **Download URL**: " ++ (r.url ++ ("\n" ++
                  "💡 **Access Method**: ")))))))))))) ++
          ((if r.format == "CSV" then "use toronto_fetch_csv_data() to get content"
            else "download and open manually") ++
            "\n💡 **Note**: API-based filtering, field selection, sorting, and limits are not applicable. Please download and process the file manually.") := by
        simp only [single_resource_message, strAppend_assoc]
      rw [hstat, hmid]
      exact strContains_mid _ _ _

/-- Witness for C4: the `budget-data` scenario — one static CSV resource. -/
theorem static_single_dispatch_witness :
    (toronto_query_dataset_data "budget-data" (.success infoBudget) (.failure none)).2 = false ∧
    (toronto_query_dataset_data "budget-data" (.success infoBudget) (.failure none)).1 =
      single_resource_message "Budget Data" ⟨"budget.csv", "http://t/budget.csv", "CSV"⟩ ∧
    strContains ((toronto_query_dataset_data "budget-data"
        (.success infoBudget) (.failure none)).1)
      "use toronto_fetch_csv_data() to get content" = true := by
  have h := static_single_dispatch "budget-data" infoBudget (.failure none) (by decide)
  have h3 := h.2.2 ⟨"budget.csv", "http://t/budget.csv", "CSV"⟩ (by decide)
  exact ⟨h.1, h3.1, h3.2.2.2⟩

/-! ### Claim C6 -/

theorem empty_ne_trunc (n : Nat) (d : String) : empty_file_message ≠ trunc_message n d := by
  apply str_ne_of_data_ne
  apply ne_of_get_ne _ _ 0 '⚠' '📄'
  · decide
  · unfold trunc_message
    simp only [strData_append, List.append_assoc]
    apply get?_append_left
    decide
  · decide

theorem complete_ne_trunc (c n : Nat) (d1 d2 : String) :
    complete_message c d1 ≠ trunc_message n d2 := by
  apply str_ne_of_data_ne
  apply ne_of_get_ne _ _ 4 'C' 'F'
  · unfold complete_message
    simp only [strData_append, List.append_assoc]
    apply get?_append_left
    decide
  · unfold trunc_message
    simp only [strData_append, List.append_assoc]
    apply get?_append_left
    decide
  · decide

theorem readLinesAux_wf (n : Nat) (stream : List (List Nat)) (i : Nat)
    (hwf : ∀ l ∈ stream, l ≠ [] ∧ ∀ b ∈ l, b < 256) :
    ∃ lines, readLinesAux i n stream = .ok (lines, stream.drop n) ∧
      lines.length = min n stream.length := by
  induction n generalizing stream i with
  | zero => exact ⟨[], rfl, by simp⟩
  | succ k ih =>
    cases stream with
    | nil => exact ⟨[], rfl, by simp⟩
    | cons line rest =>
      obtain ⟨hne, hbytes⟩ := hwf line (List.mem_cons_self line rest)
      have hl : line.isEmpty = false := by
        cases line with
        | nil => exact absurd rfl hne
        | cons b bs => rfl
      have hdec := decodeLine_isSome line hbytes
      cases hd : decodeLine line with
      | none => rw [hd] at hdec; exact Bool.noConfusion hdec
      | some s =>
        obtain ⟨ls, hls, hlen⟩ :=
          ih rest (i + 1) (fun l hl2 => hwf l (List.mem_cons_of_mem line hl2))
        refine ⟨s :: ls, ?_, ?_⟩
        · simp [readLinesAux, hl, hd, hls, List.drop_succ_cons]
        · simp only [List.length_cons, List.length_drop]
          omega

/-- C6 (counterexample): with `max_lines = 0` and a nonempty remote file, a
line exists beyond line 0, yet the fetcher returns the empty-file result with
no truncation annotation — refuting "the annotation appears iff a line exists
beyond line maxLines". -/
theorem truncation_annotation_counterexample :
    toronto_fetch_csv_data "http://x" 200 [[97, 10]] 0 = empty_file_message ∧
    0 < ([[97, 10]] : List (List Nat)).length ∧
    strContains (toronto_fetch_csv_data "http://x" 200 [[97, 10]] 0)
      "(file truncated, more data exists)" = false := by
  refine ⟨rfl, by decide, by decide⟩

/-- C6 (amended): for every accepted URL and well-formed remote stream, the
fetcher reads `min maxLines total` lines (so never more than `maxLines`), and
the result is the annotation-carrying truncated message exactly when a line
exists beyond line `maxLines` AND the joined decoded content of the lines
read is non-empty (otherwise the empty-file result is returned without the
annotation, as the counterexample at `maxLines = 0` shows). -/
theorem fetch_bound_and_truncation (csv_url : String) (stream : List (List Nat))
    (max_lines : Nat)
    (hurl : (strStartsWith csv_url "http://" || strStartsWith csv_url "https://") = true)
    (hwf : ∀ l ∈ stream, l ≠ [] ∧ ∀ b ∈ l, b < 256) :
    readLines max_lines stream =
      .ok (linesOf (readLines max_lines stream), stream.drop max_lines) ∧
    (linesOf (readLines max_lines stream)).length = min max_lines stream.length ∧
    (toronto_fetch_csv_data csv_url 200 stream max_lines =
        trunc_message max_lines (joinLines (linesOf (readLines max_lines stream))) ↔
      (max_lines < stream.length ∧
        joinLines (linesOf (readLines max_lines stream)) ≠ "")) := by
  obtain ⟨lines, hls, hlen⟩ := readLinesAux_wf max_lines stream 0 hwf
  have hls2 : readLines max_lines stream = .ok (lines, stream.drop max_lines) := hls
  have hlo : linesOf (readLines max_lines stream) = lines := by
    rw [hls2]
    rfl
  rw [hlo]
  have hfetch : toronto_fetch_csv_data csv_url 200 stream max_lines =
      (if (joinLines lines == "") = true then empty_file_message
       else if (lines.length == max_lines &&
           !((stream.drop max_lines).headD []).isEmpty) = true then
         trunc_message max_lines (joinLines lines)
       else complete_message lines.length (joinLines lines)) := by
    unfold toronto_fetch_csv_data
    have h1 : (!strStartsWith csv_url "http://" && !strStartsWith csv_url "https://") = false := by
      cases ha : strStartsWith csv_url "http://" <;>
        cases hb : strStartsWith csv_url "https://" <;> simp_all
    rw [h1, hls2]
    simp
  refine ⟨by rw [hls2], hlen, ?_⟩
  by_cases hemp : joinLines lines = ""
  · have hfe : toronto_fetch_csv_data csv_url 200 stream max_lines = empty_file_message := by
      rw [hfetch]
      simp [hemp]
    rw [hfe]
    constructor
    · intro h
      exact absurd h (empty_ne_trunc max_lines (joinLines lines))
    · intro h
      exact absurd hemp h.2
  · have hemp' : (joinLines lines == "") = false := beq_eq_false_iff_ne.2 hemp
    cases hm : (lines.length == max_lines && !((stream.drop max_lines).headD []).isEmpty)
    · have hfc : toronto_fetch_csv_data csv_url 200 stream max_lines =
          complete_message lines.length (joinLines lines) := by
        rw [hfetch, hemp', hm]
        simp
      rw [hfc]
      constructor
      · intro h
        exact absurd h (complete_ne_trunc lines.length max_lines (joinLines lines) (joinLines lines))
      · rintro ⟨hlt, -⟩
        exfalso
        have hlinlen : lines.length = max_lines := by omega
        have hdropne : stream.drop max_lines ≠ [] := by
          rw [Ne, List.drop_eq_nil_iff_le]
          omega
        cases hdd : stream.drop max_lines with
        | nil => exact hdropne hdd
        | cons l0 tl =>
          have hl0mem : l0 ∈ stream :=
            List.drop_subset max_lines stream (hdd ▸ List.mem_cons_self l0 tl)
          have hl0ne : l0 ≠ [] := (hwf l0 hl0mem).1
          have hl0e : l0.isEmpty = false := by
            cases l0 with
            | nil => exact absurd rfl hl0ne
            | cons b bs => rfl
          rw [hdd] at hm
          simp [hlinlen, hl0e, List.headD_cons] at hm
    · have hft : toronto_fetch_csv_data csv_url 200 stream max_lines =
          trunc_message max_lines (joinLines lines) := by
        rw [hfetch, hemp', hm]
        simp
      rw [hft]
      constructor
      · intro _
        refine ⟨?_, hemp⟩
        rw [Bool.and_eq_true] at hm
        obtain ⟨hleq, hhead⟩ := hm
        cases hdd : stream.drop max_lines with
        | nil =>
          rw [hdd] at hhead
          exact absurd hhead (by decide)
        | cons l0 tl =>
          have : stream.drop max_lines ≠ [] := by
            rw [hdd]
            exact List.cons_ne_nil l0 tl
          rw [Ne, List.drop_eq_nil_iff_le] at this
          omega
      · intro _
        rfl

/-- Witness for C6's amended theorem: two lines, `max_lines = 1` — the result
is truncated and annotated. -/
theorem fetch_bound_and_truncation_witness :
    readLines 1 [[97, 10], [98, 10]] =
      .ok (linesOf (readLines 1 [[97, 10], [98, 10]]),
        ([[97, 10], [98, 10]] : List (List Nat)).drop 1) ∧
    (linesOf (readLines 1 [[97, 10], [98, 10]])).length =
      min 1 ([[97, 10], [98, 10]] : List (List Nat)).length ∧
    (toronto_fetch_csv_data "http://t/a.csv" 200 [[97, 10], [98, 10]] 1 =
        trunc_message 1 (joinLines (linesOf (readLines 1 [[97, 10], [98, 10]]))) ↔
      (1 < ([[97, 10], [98, 10]] : List (List Nat)).length ∧
        joinLines (linesOf (readLines 1 [[97, 10], [98, 10]])) ≠ "")) :=
  fetch_bound_and_truncation "http://t/a.csv" [[97, 10], [98, 10]] 1 (by decide) (by decide)
